import Mathlib

/-!
Verification of the space-shooter client synchronization core
(`src/game/scenes/game.go`) against its natural-language specification.

The Go source under `src/` provides `NewGameScene` (bootstrap),
`createPlayer`, `movePlayer` (outbound input path),
`receiveServerUpdates` (inbound dispatch loop) and
`findCorrespondingPlayer`, together with the `component.PlayerData`
record.  These are embedded below as pure Lean functions over an
explicit world state (the donburi ECS world is modelled as a list of
entities in creation order, which is the order its queries iterate).

The `component.PositionData` record and its movement methods, and the
`messages`/`rpc` payload types, are referenced by the source but their
definitions are not part of the sources at hand; those are modelled
from the specification and marked as such in their doc comments.
Floating-point coordinates are modelled with exact rationals.
-/

/-- Player identifier: `messages.PlayerId`, an integer-like id
(`game.go` converts it with `int(playerId)`). -/
abbrev PlayerId := Int

/-- Modelled from the spec: `component.PositionData` is
`{x: float, y: float, angle: float (radians)}`; its definition is not in
the sources at hand.  Floats are modelled as exact rationals. -/
structure PositionData where
  X : ℚ
  Y : ℚ
  Angle : ℚ
deriving DecidableEq

/-- `component.PlayerData` (from `component/player.go`):
`{Name string; Health float64; Id int}`. -/
structure PlayerData where
  Name : String
  Health : ℚ
  Id : Int
deriving DecidableEq

/-- One ECS entity as created by `createPlayer`: it always carries a
`Player` (PlayerData) and a `Position` (PositionData) component.  (The
`Sprite` component holds only a renderer image and is omitted.) -/
structure Entity where
  player : PlayerData
  position : PositionData
deriving DecidableEq

/-- The Entity State Table: the donburi world, modelled as the list of
entities in creation order (the order `query.Iter` yields them). -/
abbrev World := List Entity

/-- `messages.UpdatePosition`: payload shape `{PlayerId, Position}`. -/
structure UpdatePosition where
  PlayerId : PlayerId
  Position : PositionData
deriving DecidableEq

/-- `messages.PlayerConnected`: payload shape `{PlayerId, Position}`;
also the shape of one entry of `EstablishConnection.EnemyData`. -/
structure PlayerConnected where
  PlayerId : PlayerId
  Position : PositionData
deriving DecidableEq

/-- `messages.EstablishConnection`: the handshake payload — the assigned
id, this player's initial position, and the roster of already-connected
remote participants. -/
structure EstablishConnection where
  PlayerId : PlayerId
  Position : PositionData
  EnemyData : List PlayerConnected
deriving DecidableEq

/-- The msgpack-encoded payload bytes of an envelope, modelled by what
they decode to: bytes that decode as one of the protocol shapes, or
bytes that match none of them (`malformed`). -/
inductive Payload where
  | establishConnection (ec : EstablishConnection)
  | updatePosition (u : UpdatePosition)
  | playerConnected (p : PlayerConnected)
  | malformed
deriving DecidableEq

/-- `msgpack.Unmarshal(payload, &updatePosition)`: succeeds exactly when
the bytes encode an `UpdatePosition` value. -/
def decodeUpdatePosition : Payload → Option UpdatePosition
  | .updatePosition u => some u
  | _ => none

/-- `msgpack.Unmarshal(payload, &playerConnected)`. -/
def decodePlayerConnected : Payload → Option PlayerConnected
  | .playerConnected p => some p
  | _ => none

/-- `msgpack.Unmarshal(message.Payload, &establishConnection)`. -/
def decodeEstablishConnection : Payload → Option EstablishConnection
  | .establishConnection ec => some ec
  | _ => none

/-- `rpc.BaseMessage`: the envelope — a message-type tag plus the
encoded payload. -/
structure BaseMessage where
  MessageType : String
  Payload : Payload
deriving DecidableEq

/-- `createPlayer` (game.go:78-104): unconditionally create a fresh
entity with `PlayerData{Name: "Player One", Id: int(playerId)}`
(Health is left at its zero value) and the given position.
`world.Create` appends the new entity at the end of iteration order. -/
def createPlayer (playerId : PlayerId) (position : PositionData) (w : World) : World :=
  w ++ [{ player := { Name := "Player One", Health := 0, Id := playerId },
          position := position }]

/-- The entity-creation part of `NewGameScene` (game.go:55-59): one
entity for the local player, then one per roster entry, in order. -/
def initWorld (ec : EstablishConnection) : World :=
  ec.EnemyData.foldl (fun w e => createPlayer e.PlayerId e.Position w)
    (createPlayer ec.PlayerId ec.Position [])

/-- `findCorrespondingPlayer` (game.go:202-210): linear scan over the
world, returning the first entity whose stored `Player.Id` equals the
given id — modelled as the index of that entity, `none` when no entity
matches. -/
def findCorrespondingPlayer (w : World) (playerId : PlayerId) : Option Nat :=
  match w with
  | [] => none
  | e :: rest =>
    if e.player.Id = playerId then some 0
    else (findCorrespondingPlayer rest playerId).map (· + 1)

/-- `component.Position.SetValue(entry, pos)`: overwrite the position
component of the entity at the given index, wholesale. -/
def setPositionAt (pos : PositionData) : List Entity → Nat → List Entity
  | [], _ => []
  | e :: rest, 0 => { e with position := pos } :: rest
  | e :: rest, n + 1 => e :: setPositionAt pos rest n

/-- The `"UpdatePosition"` arm of `receiveServerUpdates`
(game.go:176-187): find the first entity with the sender's id; if
found, overwrite its position; otherwise drop the message. -/
def handleUpdatePosition (w : World) (u : UpdatePosition) : World :=
  match findCorrespondingPlayer w u.PlayerId with
  | none => w
  | some i => setPositionAt u.Position w i

/-- One inbound-loop iteration observes either a receive error or a
delivered envelope. -/
inductive InboundEvent where
  | recvError
  | msg (m : BaseMessage)

/-- One iteration of `receiveServerUpdates` (game.go:168-200): a receive
error skips the message; otherwise dispatch on the tag — decode failures
drop the message, `UpdatePosition` updates an existing entity,
`PlayerConnected` unconditionally creates one, other tags are ignored. -/
def receiveStep (ev : InboundEvent) (w : World) : World :=
  match ev with
  | .recvError => w
  | .msg m =>
    match m.MessageType with
    | "UpdatePosition" =>
      match decodeUpdatePosition m.Payload with
      | none => w
      | some u => handleUpdatePosition w u
    | "PlayerConnected" =>
      match decodePlayerConnected m.Payload with
      | none => w
      | some p => createPlayer p.PlayerId p.Position w
    | _ => w

/-- Modelled from the spec: the fixed angular step of the rotation
methods of `component.PositionData` (not in the sources at hand); its
exact magnitude is irrelevant to the properties proved, only that both
rotation directions use the same step. -/
def rotationStep : ℚ := 1 / 16

/-- Modelled from the spec: `PositionData.RotateClockwise` — adjust the
heading by the fixed angular step in one direction. -/
def RotateClockwise (p : PositionData) : PositionData :=
  { p with Angle := p.Angle + rotationStep }

/-- Modelled from the spec: `PositionData.RotateCounterClockwise` —
adjust the heading by the same step in the opposite direction. -/
def RotateCounterClockwise (p : PositionData) : PositionData :=
  { p with Angle := p.Angle - rotationStep }

/-- The point-in-time directional input sample `ebiten.IsKeyPressed`
reads: W = move forward, A = rotate left key, D = rotate right key. -/
structure InputState where
  keyW : Bool
  keyA : Bool
  keyD : Bool
deriving DecidableEq

/-- The `updatePosition` closure of `movePlayer` (game.go:132-141): wrap
the local id and the current position in an `UpdatePosition` envelope. -/
def sendUpdatePosition (playerId : PlayerId) (p : PositionData) : BaseMessage :=
  { MessageType := "UpdatePosition", Payload := .updatePosition { PlayerId := playerId, Position := p } }

/-- The per-entity body of `movePlayer` (game.go:150-162): for each
pressed key, apply the corresponding transform to the position in place
and immediately send the position as it then stands.  The `Forward`
method of `component.PositionData` is not in the sources at hand and is
kept as an explicit parameter `fwd` (the spec: advance the position
along the current heading by a fixed step); every property proved holds
for an arbitrary `fwd`. -/
def applyInputs (fwd : PositionData → PositionData) (inp : InputState)
    (playerId : PlayerId) (p : PositionData) : PositionData × List BaseMessage :=
  let s1 := if inp.keyW then
      let q := fwd p; (q, [sendUpdatePosition playerId q])
    else (p, [])
  let s2 := if inp.keyA then
      let q := RotateClockwise s1.1; (q, [sendUpdatePosition playerId q])
    else (s1.1, [])
  let s3 := if inp.keyD then
      let q := RotateCounterClockwise s2.1; (q, [sendUpdatePosition playerId q])
    else (s2.1, [])
  (s3.1, s1.2 ++ s2.2 ++ s3.2)

/-- `movePlayer` (game.go:130-165): iterate over all entities, skip
those whose stored id differs from the local `playerId`, and run the
input body on the rest; returns the updated world together with the
messages sent, in order. -/
def movePlayer (fwd : PositionData → PositionData) (inp : InputState)
    (playerId : PlayerId) (w : World) : World × List BaseMessage :=
  match w with
  | [] => ([], [])
  | e :: rest =>
    let tail := movePlayer fwd inp playerId rest
    if e.player.Id = playerId then
      let done := applyInputs fwd inp playerId e.position
      ({ e with position := done.1 } :: tail.1, done.2 ++ tail.2)
    else
      (e :: tail.1, tail.2)

/-- Bootstrap (`NewGameScene`, game.go:27-64) as a total function over
its fallible steps: the dial outcome and the first `receive` outcome
(`none` = receive error).  `log.Fatal` is modelled as `none`; on success
it yields the assigned local id and the seeded world.  Note the source
never inspects `message.MessageType`. -/
def NewGameScene (dialOk : Bool) (recv : Option BaseMessage) : Option (PlayerId × World) :=
  if dialOk then
    match recv with
    | none => none
    | some message =>
      match decodeEstablishConnection message.Payload with
      | none => none
      | some ec => some (ec.PlayerId, initWorld ec)
  else none

/-- An event observable by the synchronization engine after bootstrap:
one inbound-loop iteration, or one outbound input tick. -/
inductive Event where
  | inbound (ev : InboundEvent)
  | tick (inp : InputState)

/-- One post-bootstrap transition of the Entity State Table. -/
def stepEvent (fwd : PositionData → PositionData) (playerId : PlayerId)
    (e : Event) (w : World) : World :=
  match e with
  | .inbound ev => receiveStep ev w
  | .tick inp => (movePlayer fwd inp playerId w).1

/-- The reachable states of the system: a bootstrap from some valid
`EstablishConnection` payload followed by any sequence of inbound
messages and outbound input ticks. -/
inductive Reachable (fwd : PositionData → PositionData) : PlayerId → World → Prop
  | boot (ec : EstablishConnection) : Reachable fwd ec.PlayerId (initWorld ec)
  | step (playerId : PlayerId) (e : Event) (w : World) :
      Reachable fwd playerId w → Reachable fwd playerId (stepEvent fwd playerId e w)

/-- The ids stored in the table, in iteration order. -/
def entityIds (w : World) : List Int :=
  w.map (fun e => e.player.Id)

/-- "At most one entity per PlayerId": the stored ids are pairwise
distinct. -/
def NoDupIds (w : World) : Prop :=
  (entityIds w).Nodup

instance : DecidablePred NoDupIds := fun w =>
  inferInstanceAs (Decidable (entityIds w).Nodup)

/-- The reachable states restricted as the spec's invariant requires:
the bootstrap roster ids (local id included) are pairwise distinct, and
no processed `PlayerConnected` message carries an id already present in
the table. -/
inductive ReachableFresh (fwd : PositionData → PositionData) : PlayerId → World → Prop
  | boot (ec : EstablishConnection)
      (h : (ec.PlayerId :: ec.EnemyData.map (fun p => p.PlayerId)).Nodup) :
      ReachableFresh fwd ec.PlayerId (initWorld ec)
  | tick (playerId : PlayerId) (inp : InputState) (w : World) :
      ReachableFresh fwd playerId w →
      ReachableFresh fwd playerId (movePlayer fwd inp playerId w).1
  | inbound (playerId : PlayerId) (ev : InboundEvent) (w : World)
      (h : ∀ m p, ev = InboundEvent.msg m → m.MessageType = "PlayerConnected" →
            decodePlayerConnected m.Payload = some p → p.PlayerId ∉ entityIds w) :
      ReachableFresh fwd playerId w →
      ReachableFresh fwd playerId (receiveStep ev w)

/-! ### Basic lemmas about the table operations -/

/-- The entity record `createPlayer` builds for a participant. -/
def mkEntity (playerId : PlayerId) (position : PositionData) : Entity :=
  { player := { Name := "Player One", Health := 0, Id := playerId },
    position := position }

theorem createPlayer_eq (playerId : PlayerId) (position : PositionData) (w : World) :
    createPlayer playerId position w = w ++ [mkEntity playerId position] := rfl

theorem foldl_createPlayer (l : List PlayerConnected) (w : World) :
    l.foldl (fun w e => createPlayer e.PlayerId e.Position w) w
      = w ++ l.map (fun p => mkEntity p.PlayerId p.Position) := by
  induction l generalizing w with
  | nil => simp
  | cons p rest ih =>
    rw [List.foldl_cons, ih]
    simp [createPlayer_eq]

theorem initWorld_eq (ec : EstablishConnection) :
    initWorld ec = mkEntity ec.PlayerId ec.Position ::
      ec.EnemyData.map (fun p => mkEntity p.PlayerId p.Position) := by
  rw [initWorld, foldl_createPlayer]
  simp [createPlayer_eq]

/-! ### C1: bootstrap seeds one entity per participant -/

/-- C1: For every `EstablishConnection` payload with N remote
participants, bootstrap creates exactly N+1 entities — the local player
first, then one per roster entry — and each created entity carries
exactly the PositionData (and PlayerId) given for it in the payload. -/
theorem bootstrap_creates_n_plus_one_entities (ec : EstablishConnection) :
    (initWorld ec).length = ec.EnemyData.length + 1 ∧
    (initWorld ec).map (fun e => e.position)
      = ec.Position :: ec.EnemyData.map (fun p => p.Position) ∧
    (initWorld ec).map (fun e => e.player.Id)
      = ec.PlayerId :: ec.EnemyData.map (fun p => p.PlayerId) := by
  refine ⟨?_, ?_, ?_⟩ <;> simp [initWorld_eq, mkEntity]

/-! ### C7: duplicate PlayerConnected messages create duplicate entities -/

/-- C7: processing two consecutive `PlayerConnected` envelopes carrying
the same PlayerId creates a new entity each time, with no pre-existence
check: the table grows by two, and the number of entities bearing that
PlayerId grows by two. -/
theorem duplicate_playerConnected_creates_duplicates (w : World) (p : PlayerConnected) :
    (receiveStep (.msg ⟨"PlayerConnected", .playerConnected p⟩)
        (receiveStep (.msg ⟨"PlayerConnected", .playerConnected p⟩) w)).length
      = w.length + 2 ∧
    ((receiveStep (.msg ⟨"PlayerConnected", .playerConnected p⟩)
        (receiveStep (.msg ⟨"PlayerConnected", .playerConnected p⟩) w)).filter
          (fun e => e.player.Id == p.PlayerId)).length
      = (w.filter (fun e => e.player.Id == p.PlayerId)).length + 2 := by
  constructor
  · simp [receiveStep, decodePlayerConnected, createPlayer_eq]
  · simp [receiveStep, decodePlayerConnected, createPlayer_eq, List.filter_append, mkEntity]

/-! ### C9: rotation round-trip -/

/-- C9: applying the rotate-left transform (the A-key method,
`RotateClockwise`) and then the rotate-right transform (the D-key
method, `RotateCounterClockwise`), which use equal step magnitudes,
returns the heading to its original value — in either order. -/
theorem rotate_left_then_right_restores_heading (p : PositionData) :
    (RotateCounterClockwise (RotateClockwise p)).Angle = p.Angle ∧
    (RotateClockwise (RotateCounterClockwise p)).Angle = p.Angle := by
  constructor <;> simp [RotateClockwise, RotateCounterClockwise]

/-! ### C8: inbound error paths are transient and mutate nothing -/

/-- C8: in the inbound loop, a receive error or a payload-decode
failure for a recognized tag drops the offending message and leaves the
Entity State Table entirely unchanged. -/
theorem inbound_error_paths_leave_state_unchanged (w : World) (p : Payload) :
    receiveStep .recvError w = w ∧
    (decodeUpdatePosition p = none → receiveStep (.msg ⟨"UpdatePosition", p⟩) w = w) ∧
    (decodePlayerConnected p = none → receiveStep (.msg ⟨"PlayerConnected", p⟩) w = w) := by
  refine ⟨rfl, ?_, ?_⟩ <;> intro h <;> simp [receiveStep, h]

/-- C8 witness: at a concrete one-entity table and a malformed payload,
both recognized tags drop the message and leave the table unchanged. -/
theorem inbound_error_paths_witness :
    receiveStep (.msg ⟨"UpdatePosition", Payload.malformed⟩) [mkEntity 1 ⟨0, 0, 0⟩]
      = [mkEntity 1 ⟨0, 0, 0⟩] ∧
    receiveStep (.msg ⟨"PlayerConnected", Payload.malformed⟩) [mkEntity 1 ⟨0, 0, 0⟩]
      = [mkEntity 1 ⟨0, 0, 0⟩] :=
  ⟨(inbound_error_paths_leave_state_unchanged [mkEntity 1 ⟨0, 0, 0⟩] Payload.malformed).2.1 rfl,
   (inbound_error_paths_leave_state_unchanged [mkEntity 1 ⟨0, 0, 0⟩] Payload.malformed).2.2 rfl⟩

/-! ### Characterization of the outbound input path -/

theorem movePlayer_fst (fwd : PositionData → PositionData) (inp : InputState)
    (pid : PlayerId) (w : World) :
    (movePlayer fwd inp pid w).1
      = w.map (fun e => if e.player.Id = pid
          then { e with position := (applyInputs fwd inp pid e.position).1 } else e) := by
  induction w with
  | nil => rfl
  | cons e rest ih =>
    by_cases he : e.player.Id = pid <;> simp [movePlayer, he, ih]

theorem movePlayer_snd (fwd : PositionData → PositionData) (inp : InputState)
    (pid : PlayerId) (w : World) :
    (movePlayer fwd inp pid w).2
      = (w.filter (fun e => e.player.Id == pid)).flatMap
          (fun e => (applyInputs fwd inp pid e.position).2) := by
  induction w with
  | nil => rfl
  | cons e rest ih =>
    by_cases he : e.player.Id = pid <;> simp [movePlayer, he, ih]

/-! ### C3: the input path mutates only the local player's entity -/

/-- C3: one invocation of the outbound input path (`movePlayer`) leaves
every entity whose stored id differs from the local `playerId` exactly
as it was (holds for any forward transform `fwd` and any input state);
the table's length is preserved as well. -/
theorem input_path_leaves_non_local_entities_unchanged
    (fwd : PositionData → PositionData) (inp : InputState) (pid : PlayerId)
    (w : World) :
    (movePlayer fwd inp pid w).1.length = w.length ∧
    ∀ i : Nat, ∀ e : Entity, w[i]? = some e → e.player.Id ≠ pid →
      (movePlayer fwd inp pid w).1[i]? = some e := by
  rw [movePlayer_fst]
  refine ⟨by simp, ?_⟩
  intro i e he hne
  simp [List.getElem?_map, he, hne]

/-- C3 witness: with both a local (id 1) and a remote (id 2) entity in
the table and all three keys pressed, the remote entity is untouched by
the input path. -/
theorem input_path_witness :
    (movePlayer (fun p => { p with X := p.X + 5 }) ⟨true, true, true⟩ 1
        [mkEntity 1 ⟨0, 0, 0⟩, mkEntity 2 ⟨7, 8, 9⟩]).1[1]?
      = some (mkEntity 2 ⟨7, 8, 9⟩) :=
  (input_path_leaves_non_local_entities_unchanged (fun p => { p with X := p.X + 5 })
      ⟨true, true, true⟩ 1 [mkEntity 1 ⟨0, 0, 0⟩, mkEntity 2 ⟨7, 8, 9⟩]).2
    1 (mkEntity 2 ⟨7, 8, 9⟩) rfl (by decide)

/-! ### C4: each active input applies its transform and sends its own message -/

/-- C4: in one outbound invocation on a table whose only entity with the
local id holds position `e.position`, each active input among
{W = forward, A = rotate left, D = rotate right} applies its transform
in place and immediately sends an `UpdatePosition` envelope carrying the
local id and the position as it stands after that transform; k active
inputs produce k separate messages, never one batched message. -/
theorem each_active_input_sends_own_message
    (fwd : PositionData → PositionData) (inp : InputState) (pid : PlayerId)
    (w : World) (e : Entity)
    (h : w.filter (fun x => x.player.Id == pid) = [e]) :
    (movePlayer fwd inp pid w).2
      = (let p1 := if inp.keyW then fwd e.position else e.position
         let p2 := if inp.keyA then RotateClockwise p1 else p1
         let p3 := if inp.keyD then RotateCounterClockwise p2 else p2
         (if inp.keyW then [sendUpdatePosition pid p1] else []) ++
         (if inp.keyA then [sendUpdatePosition pid p2] else []) ++
         (if inp.keyD then [sendUpdatePosition pid p3] else [])) ∧
    (movePlayer fwd inp pid w).2.length
      = (if inp.keyW then 1 else 0) + (if inp.keyA then 1 else 0)
          + (if inp.keyD then 1 else 0) := by
  rw [movePlayer_snd, h]
  obtain ⟨kw, ka, kd⟩ := inp
  cases kw <;> cases ka <;> cases kd <;> simp [applyInputs]

/-- C4 witness: with all three keys pressed on a single-entity table,
three separate messages are sent, each carrying the position right
after its transform. -/
theorem each_active_input_witness :
    (movePlayer (fun p => { p with X := p.X + 5 }) ⟨true, true, true⟩ 1
        [mkEntity 1 ⟨0, 0, 0⟩]).2
      = [sendUpdatePosition 1 ⟨5, 0, 0⟩,
         sendUpdatePosition 1 ⟨5, 0, rotationStep⟩,
         sendUpdatePosition 1 ⟨5, 0, 0⟩] ∧
    (movePlayer (fun p => { p with X := p.X + 5 }) ⟨true, true, true⟩ 1
        [mkEntity 1 ⟨0, 0, 0⟩]).2.length = 3 := by
  have h := each_active_input_sends_own_message (fun p => { p with X := p.X + 5 })
    ⟨true, true, true⟩ 1 [mkEntity 1 ⟨0, 0, 0⟩] (mkEntity 1 ⟨0, 0, 0⟩) (by decide)
  refine ⟨?_, h.2⟩
  rw [h.1]
  simp [RotateClockwise, RotateCounterClockwise, mkEntity]

/-! ### Lemmas about the linear scan and the position overwrite -/

theorem findCorrespondingPlayer_eq_none (w : World) (pid : PlayerId) :
    findCorrespondingPlayer w pid = none ↔ ∀ e ∈ w, e.player.Id ≠ pid := by
  induction w with
  | nil => simp [findCorrespondingPlayer]
  | cons e rest ih =>
    by_cases he : e.player.Id = pid <;> simp [findCorrespondingPlayer, he, ih]

theorem findCorrespondingPlayer_eq_some (w : World) (pid : PlayerId) (i : Nat)
    (h : findCorrespondingPlayer w pid = some i) :
    (∃ e : Entity, w[i]? = some e ∧ e.player.Id = pid) ∧
    ∀ j : Nat, j < i → ∀ e : Entity, w[j]? = some e → e.player.Id ≠ pid := by
  induction w generalizing i with
  | nil => simp [findCorrespondingPlayer] at h
  | cons e rest ih =>
    by_cases he : e.player.Id = pid
    · simp [findCorrespondingPlayer, he] at h
      subst h
      exact ⟨⟨e, by simp, he⟩, by omega⟩
    · simp [findCorrespondingPlayer, he] at h
      obtain ⟨k, hk, rfl⟩ := h
      obtain ⟨⟨e', he', hid⟩, hfirst⟩ := ih k hk
      refine ⟨⟨e', by simpa using he', hid⟩, ?_⟩
      intro j hj f hf
      match j with
      | 0 => simp at hf; subst hf; exact he
      | j + 1 =>
        exact hfirst j (by omega) f (by simpa using hf)

theorem setPositionAt_length (pos : PositionData) (w : List Entity) (i : Nat) :
    (setPositionAt pos w i).length = w.length := by
  induction w generalizing i with
  | nil => rfl
  | cons e rest ih =>
    match i with
    | 0 => rfl
    | i + 1 => simp [setPositionAt, ih]

theorem setPositionAt_getElem_ne (pos : PositionData) (w : List Entity)
    (i j : Nat) (h : j ≠ i) : (setPositionAt pos w i)[j]? = w[j]? := by
  induction w generalizing i j with
  | nil => rfl
  | cons e rest ih =>
    match i, j with
    | 0, 0 => omega
    | 0, j + 1 => simp [setPositionAt]
    | i + 1, 0 => simp [setPositionAt]
    | i + 1, j + 1 => simpa [setPositionAt] using ih i j (by omega)

theorem setPositionAt_getElem_eq (pos : PositionData) (w : List Entity)
    (i : Nat) (e : Entity) (h : w[i]? = some e) :
    (setPositionAt pos w i)[i]? = some { e with position := pos } := by
  induction w generalizing i with
  | nil => simp at h
  | cons f rest ih =>
    match i with
    | 0 => simp at h; subst h; simp [setPositionAt]
    | i + 1 => simpa [setPositionAt] using ih i (by simpa using h)

/-! ### C10: with duplicate ids, only the first match is overwritten -/

/-- C10: when the table may contain several entities with the sender's
id, an inbound `UpdatePosition` overwrites the PositionData of only the
first matching entity in iteration order (the index the linear scan
returns); every entity at any other index — including later entities
carrying the same id — is left unchanged. -/
theorem updatePosition_overwrites_only_first_match
    (w : World) (pid : PlayerId) (pos : PositionData) (i : Nat)
    (hfind : findCorrespondingPlayer w pid = some i) :
    (∃ e : Entity, w[i]? = some e ∧ e.player.Id = pid ∧
       (handleUpdatePosition w ⟨pid, pos⟩)[i]? = some { e with position := pos }) ∧
    (∀ j : Nat, j < i → ∀ e : Entity, w[j]? = some e → e.player.Id ≠ pid) ∧
    (∀ j : Nat, j ≠ i → (handleUpdatePosition w ⟨pid, pos⟩)[j]? = w[j]?) := by
  obtain ⟨⟨e, he, hid⟩, hfirst⟩ := findCorrespondingPlayer_eq_some w pid i hfind
  have hupd : handleUpdatePosition w ⟨pid, pos⟩ = setPositionAt pos w i := by
    simp [handleUpdatePosition, hfind]
  refine ⟨⟨e, he, hid, ?_⟩, hfirst, ?_⟩
  · rw [hupd]; exact setPositionAt_getElem_eq pos w i e he
  · intro j hj; rw [hupd]; exact setPositionAt_getElem_ne pos w i j hj

/-- C10 witness: in a table holding two entities with id 1 followed by
one with id 2, an update for id 1 rewrites index 0 only; the duplicate
at index 1 keeps its old position. -/
theorem updatePosition_first_match_witness :
    (handleUpdatePosition [mkEntity 1 ⟨0, 0, 0⟩, mkEntity 1 ⟨7, 8, 9⟩, mkEntity 2 ⟨3, 3, 3⟩]
        ⟨1, ⟨4, 5, 6⟩⟩)[0]? = some { mkEntity 1 ⟨0, 0, 0⟩ with position := ⟨4, 5, 6⟩ } ∧
    (handleUpdatePosition [mkEntity 1 ⟨0, 0, 0⟩, mkEntity 1 ⟨7, 8, 9⟩, mkEntity 2 ⟨3, 3, 3⟩]
        ⟨1, ⟨4, 5, 6⟩⟩)[1]? = some (mkEntity 1 ⟨7, 8, 9⟩) := by
  have h := updatePosition_overwrites_only_first_match
    [mkEntity 1 ⟨0, 0, 0⟩, mkEntity 1 ⟨7, 8, 9⟩, mkEntity 2 ⟨3, 3, 3⟩] 1 ⟨4, 5, 6⟩ 0
    (by decide)
  constructor
  · obtain ⟨⟨e, he, _, hres⟩, _, _⟩ := h
    have : e = mkEntity 1 ⟨0, 0, 0⟩ := by simpa using he.symm
    subst this
    exact hres
  · have := h.2.2 1 (by decide)
    simpa using this

theorem nodup_ids_index_unique (w : World) (h : (entityIds w).Nodup)
    (i j : Nat) (e f : Entity) (hi : w[i]? = some e) (hj : w[j]? = some f)
    (hid : e.player.Id = f.player.Id) : i = j := by
  have hi' : (entityIds w)[i]? = some e.player.Id := by
    simp [entityIds, hi]
  have hj' : (entityIds w)[j]? = some f.player.Id := by
    simp [entityIds, hj]
  obtain ⟨hlt, -⟩ := List.getElem?_eq_some.mp hi'
  exact List.getElem?_inj hlt h (by rw [hi', hj', hid])

/-! ### C2: inbound UpdatePosition — overwrite if known, drop if unknown -/

/-- C2: an inbound `UpdatePosition {pid, pos}`: when no entity carries
`pid`, the message is dropped and the table is entirely unchanged (no
entity is created); when the table's ids are pairwise distinct and some
entity carries `pid`, that entity's PositionData is overwritten
wholesale and every other entity is untouched, the entity count staying
the same. -/
theorem updatePosition_overwrites_known_drops_unknown
    (w : World) (pid : PlayerId) (pos : PositionData) :
    ((∀ e ∈ w, e.player.Id ≠ pid) → handleUpdatePosition w ⟨pid, pos⟩ = w) ∧
    ((entityIds w).Nodup →
      (handleUpdatePosition w ⟨pid, pos⟩).length = w.length ∧
      ∀ i : Nat, ∀ e : Entity, w[i]? = some e →
        (e.player.Id = pid →
          (handleUpdatePosition w ⟨pid, pos⟩)[i]? = some { e with position := pos }) ∧
        (e.player.Id ≠ pid →
          (handleUpdatePosition w ⟨pid, pos⟩)[i]? = some e)) := by
  constructor
  · intro h
    simp [handleUpdatePosition, (findCorrespondingPlayer_eq_none w pid).mpr h]
  · intro hnd
    constructor
    · cases hfind : findCorrespondingPlayer w pid with
      | none => simp [handleUpdatePosition, hfind]
      | some k => simp [handleUpdatePosition, hfind, setPositionAt_length]
    · intro i e he
      constructor
      · intro hid
        cases hfind : findCorrespondingPlayer w pid with
        | none =>
          exact absurd hid ((findCorrespondingPlayer_eq_none w pid).mp hfind e
            (List.getElem?_mem he))
        | some k =>
          obtain ⟨⟨f, hf, hfid⟩, -⟩ := findCorrespondingPlayer_eq_some w pid k hfind
          have hik : i = k :=
            nodup_ids_index_unique w hnd i k e f he hf (by rw [hid, hfid])
          subst hik
          simpa [handleUpdatePosition, hfind] using setPositionAt_getElem_eq pos w i e he
      · intro hne
        cases hfind : findCorrespondingPlayer w pid with
        | none => simp [handleUpdatePosition, hfind, he]
        | some k =>
          obtain ⟨⟨f, hf, hfid⟩, -⟩ := findCorrespondingPlayer_eq_some w pid k hfind
          have hik : i ≠ k := by
            intro hik
            subst hik
            rw [he] at hf
            exact hne (by simpa using congrArg (fun o => (o.getD e).player.Id) hf ▸ hfid ▸ rfl)
          simpa [handleUpdatePosition, hfind, he] using
            setPositionAt_getElem_ne pos w k i hik

/-- C2 witness: on the concrete table [id 1, id 2], an update for the
unknown id 5 leaves the table unchanged, and an update for id 2
overwrites entity 2's position while entity 1 keeps its own. -/
theorem updatePosition_known_unknown_witness :
    handleUpdatePosition [mkEntity 1 ⟨0, 0, 0⟩, mkEntity 2 ⟨7, 8, 9⟩] ⟨5, ⟨1, 2, 3⟩⟩
      = [mkEntity 1 ⟨0, 0, 0⟩, mkEntity 2 ⟨7, 8, 9⟩] ∧
    (handleUpdatePosition [mkEntity 1 ⟨0, 0, 0⟩, mkEntity 2 ⟨7, 8, 9⟩] ⟨2, ⟨1, 2, 3⟩⟩)[1]?
      = some { mkEntity 2 ⟨7, 8, 9⟩ with position := ⟨1, 2, 3⟩ } ∧
    (handleUpdatePosition [mkEntity 1 ⟨0, 0, 0⟩, mkEntity 2 ⟨7, 8, 9⟩] ⟨2, ⟨1, 2, 3⟩⟩)[0]?
      = some (mkEntity 1 ⟨0, 0, 0⟩) := by
  refine ⟨?_, ?_, ?_⟩
  · exact (updatePosition_overwrites_known_drops_unknown
      [mkEntity 1 ⟨0, 0, 0⟩, mkEntity 2 ⟨7, 8, 9⟩] 5 ⟨1, 2, 3⟩).1 (by decide)
  · exact (((updatePosition_overwrites_known_drops_unknown
      [mkEntity 1 ⟨0, 0, 0⟩, mkEntity 2 ⟨7, 8, 9⟩] 2 ⟨1, 2, 3⟩).2 (by decide)).2
        1 (mkEntity 2 ⟨7, 8, 9⟩) (by decide)).1 (by decide)
  · exact (((updatePosition_overwrites_known_drops_unknown
      [mkEntity 1 ⟨0, 0, 0⟩, mkEntity 2 ⟨7, 8, 9⟩] 2 ⟨1, 2, 3⟩).2 (by decide)).2
        0 (mkEntity 1 ⟨0, 0, 0⟩) (by decide)).2 (by decide)

/-! ### Which ids each operation stores -/

theorem setPositionAt_ids (pos : PositionData) (w : List Entity) (i : Nat) :
    entityIds (setPositionAt pos w i) = entityIds w := by
  induction w generalizing i with
  | nil => rfl
  | cons e rest ih =>
    match i with
    | 0 => simp [setPositionAt, entityIds]
    | i + 1 => simpa [setPositionAt, entityIds] using ih i

theorem handleUpdatePosition_ids (w : World) (u : UpdatePosition) :
    entityIds (handleUpdatePosition w u) = entityIds w := by
  cases hfind : findCorrespondingPlayer w u.PlayerId with
  | none => simp [handleUpdatePosition, hfind]
  | some i => simp [handleUpdatePosition, hfind, setPositionAt_ids]

theorem createPlayer_ids (playerId : PlayerId) (pos : PositionData) (w : World) :
    entityIds (createPlayer playerId pos w) = entityIds w ++ [playerId] := by
  simp [entityIds, createPlayer_eq, mkEntity]

theorem movePlayer_ids (fwd : PositionData → PositionData) (inp : InputState)
    (pid : PlayerId) (w : World) :
    entityIds (movePlayer fwd inp pid w).1 = entityIds w := by
  rw [movePlayer_fst]
  simp only [entityIds, List.map_map]
  apply List.map_congr_left
  intro e _
  by_cases he : e.player.Id = pid <;> simp [he]

theorem receiveStep_ids (ev : InboundEvent) (w : World) :
    entityIds (receiveStep ev w) = entityIds w ∨
    ∃ m p, ev = InboundEvent.msg m ∧ m.MessageType = "PlayerConnected" ∧
      decodePlayerConnected m.Payload = some p ∧
      entityIds (receiveStep ev w) = entityIds w ++ [p.PlayerId] := by
  cases ev with
  | recvError => left; rfl
  | msg m =>
    simp only [receiveStep]
    split
    · split
      · left; rfl
      · left; exact handleUpdatePosition_ids w _
    · rename_i htag
      split
      · left; rfl
      · rename_i p hp
        right
        exact ⟨m, p, rfl, htag, hp, createPlayer_ids p.PlayerId p.Position w⟩
    · left; rfl

/-! ### C6: at most one entity per PlayerId -/

/-- C6 counterexample: the claimed invariant fails on a reachable
state — bootstrapping with only the local player (id 1) and then
processing one inbound `PlayerConnected` envelope that also carries
id 1 yields a table with two entities bearing id 1. -/
theorem at_most_one_entity_per_id_counterexample :
    Reachable (fun p => p) 1
      (receiveStep (.msg ⟨"PlayerConnected", Payload.playerConnected ⟨1, ⟨0, 0, 0⟩⟩⟩)
        (initWorld ⟨1, ⟨0, 0, 0⟩, []⟩)) ∧
    ¬ NoDupIds
      (receiveStep (.msg ⟨"PlayerConnected", Payload.playerConnected ⟨1, ⟨0, 0, 0⟩⟩⟩)
        (initWorld ⟨1, ⟨0, 0, 0⟩, []⟩)) := by
  constructor
  · exact Reachable.step 1
      (.inbound (.msg ⟨"PlayerConnected", Payload.playerConnected ⟨1, ⟨0, 0, 0⟩⟩⟩))
      (initWorld ⟨1, ⟨0, 0, 0⟩, []⟩)
      (Reachable.boot ⟨1, ⟨0, 0, 0⟩, []⟩)
  · decide

/-- C6 amended: at most one entity per PlayerId holds in every
reachable state whose bootstrap roster ids (local id included) are
pairwise distinct and in which no processed `PlayerConnected` message
carried an id already present in the table (duplicate joins — which the
code accepts — are exactly what breaks the invariant). -/
theorem at_most_one_entity_per_id_of_fresh_joins
    (fwd : PositionData → PositionData) (playerId : PlayerId) (w : World)
    (h : ReachableFresh fwd playerId w) : NoDupIds w := by
  induction h with
  | boot ec hec =>
    have hids : entityIds (initWorld ec)
        = ec.PlayerId :: ec.EnemyData.map (fun p => p.PlayerId) := by
      simp [entityIds, initWorld_eq, mkEntity, List.map_map, Function.comp]
    rw [NoDupIds, hids]
    exact hec
  | tick pid inp w hr ih =>
    rw [NoDupIds, movePlayer_ids]
    exact ih
  | inbound pid ev w hfresh hr ih =>
    rcases receiveStep_ids ev w with hsame | ⟨m, p, hev, htag, hp, happ⟩
    · rw [NoDupIds, hsame]; exact ih
    · rw [NoDupIds, happ]
      have hnotin : p.PlayerId ∉ entityIds w := hfresh m p hev htag hp
      simp [List.nodup_append, hnotin]
      exact ih

/-- C6 witness: bootstrapping as player 1 and processing one
`PlayerConnected` for the fresh id 2 yields a table with pairwise
distinct ids. -/
theorem at_most_one_entity_per_id_witness :
    NoDupIds
      (receiveStep (.msg ⟨"PlayerConnected", Payload.playerConnected ⟨2, ⟨5, 5, 0⟩⟩⟩)
        (initWorld ⟨1, ⟨0, 0, 0⟩, []⟩)) :=
  at_most_one_entity_per_id_of_fresh_joins (fun p => p) 1 _
    (ReachableFresh.inbound 1
      (.msg ⟨"PlayerConnected", Payload.playerConnected ⟨2, ⟨5, 5, 0⟩⟩⟩)
      (initWorld ⟨1, ⟨0, 0, 0⟩, []⟩)
      (by
        intro m p hm htag hp
        cases hm
        simp [decodePlayerConnected] at hp
        subst hp
        decide)
      (ReachableFresh.boot ⟨1, ⟨0, 0, 0⟩, []⟩ (by decide)))

/-! ### C5: bootstrap failure conditions -/

/-- C5 counterexample: the claim's "fails iff … or the first envelope's
tag is not EstablishConnection …" is false — `NewGameScene` never
inspects the tag.  With a successful dial and a first envelope tagged
"UpdatePosition" whose payload nevertheless decodes as an
`EstablishConnection`, a listed fatal condition holds yet bootstrap
succeeds. -/
theorem bootstrap_failure_iff_counterexample :
    ¬ (NewGameScene true
          (some ⟨"UpdatePosition", Payload.establishConnection ⟨1, ⟨0, 0, 0⟩, []⟩⟩) = none ↔
        (true = false ∨
          (some (⟨"UpdatePosition", Payload.establishConnection ⟨1, ⟨0, 0, 0⟩, []⟩⟩ : BaseMessage)
              = none) ∨
          ((⟨"UpdatePosition", Payload.establishConnection ⟨1, ⟨0, 0, 0⟩, []⟩⟩ : BaseMessage).MessageType
              ≠ "EstablishConnection" ∨
            decodeEstablishConnection
              (⟨"UpdatePosition", Payload.establishConnection ⟨1, ⟨0, 0, 0⟩, []⟩⟩ : BaseMessage).Payload
              = none))) := by
  decide

/-- C5 amended: bootstrap fails fatally iff the dial fails, the first
receive fails, or the first envelope's payload fails to decode as an
`EstablishConnection` — the envelope's tag is never inspected;
otherwise it succeeds with the decoded identity and the seeded
snapshot. -/
theorem bootstrap_failure_iff (dialOk : Bool) (recv : Option BaseMessage) :
    (NewGameScene dialOk recv = none ↔
      (dialOk = false ∨ recv = none ∨
        ∃ m, recv = some m ∧ decodeEstablishConnection m.Payload = none)) ∧
    (∀ m ec, dialOk = true → recv = some m →
      decodeEstablishConnection m.Payload = some ec →
      NewGameScene dialOk recv = some (ec.PlayerId, initWorld ec)) := by
  constructor
  · cases dialOk with
    | false => simp [NewGameScene]
    | true =>
      cases recv with
      | none => simp [NewGameScene]
      | some m =>
        cases hd : decodeEstablishConnection m.Payload with
        | none => simp [NewGameScene, hd]
        | some ec => simp [NewGameScene, hd]
  · intro m ec hdial hm hd
    subst hdial
    subst hm
    simp [NewGameScene, hd]

/-- C5 witness: a successful dial and a decodable handshake envelope
make bootstrap succeed with the decoded identity and snapshot. -/
theorem bootstrap_failure_iff_witness :
    NewGameScene true
        (some ⟨"EstablishConnection", Payload.establishConnection ⟨1, ⟨0, 0, 0⟩, [⟨2, ⟨5, 5, 0⟩⟩]⟩⟩)
      = some (1, initWorld ⟨1, ⟨0, 0, 0⟩, [⟨2, ⟨5, 5, 0⟩⟩]⟩) :=
  (bootstrap_failure_iff true
      (some ⟨"EstablishConnection", Payload.establishConnection ⟨1, ⟨0, 0, 0⟩, [⟨2, ⟨5, 5, 0⟩⟩]⟩⟩)).2
    ⟨"EstablishConnection", Payload.establishConnection ⟨1, ⟨0, 0, 0⟩, [⟨2, ⟨5, 5, 0⟩⟩]⟩⟩
    ⟨1, ⟨0, 0, 0⟩, [⟨2, ⟨5, 5, 0⟩⟩]⟩ rfl rfl rfl
